import Mathlib

/-!
Shallow embedding of the cpap-tracker scan engine (src/tracker.py and the
read side in src/dashboard.py).  HTML documents are modelled abstractly by
the projections the code queries (first h1 text, elements with their class
lists and text, the variant-inventory span, the document's text nodes);
regex searches are modelled by explicit character-level matchers with the
same semantics on this model.  The SQLite store is modelled as an explicit
state with column-presence flags and a row list; a connection carries a
pending (uncommitted) and a committed row list.
-/

/-- Python whitespace class for the regex escape backslash-s (ASCII model). -/
def isPySpace (c : Char) : Bool :=
  c = ' ' || c = '\t' || c = '\n' || c = '\r' || c = Char.ofNat 11 || c = Char.ofNat 12

/-- Lowercase every character (model of lowercasing for case-insensitive regex search). -/
def lowerL (l : List Char) : List Char := l.map Char.toLower

/-- Substring test: does s contain pat as a contiguous sublist (Python in-operator on str). -/
def listContains (pat s : List Char) : Bool := s.tails.any (fun t => pat.isPrefixOf t)

/-- Numeric value of a digit string (model of Python int on a string of digits). -/
def digitsVal (l : List Char) : Nat := l.foldl (fun acc c => acc * 10 + (c.toNat - 48)) 0

/-- Require at least one character satisfying p, then drop the maximal run of them. -/
def dropWhile1 (p : Char → Bool) : List Char → Option (List Char)
  | [] => none
  | c :: cs => if p c then some (cs.dropWhile p) else none

/-- Match a literal character sequence at the front, returning the rest. -/
def matchLit (lit cs : List Char) : Option (List Char) :=
  if lit.isPrefixOf cs then some (cs.drop lit.length) else none

/-- Match of the stock regex digits-spaces-in-spaces-stock anchored at the
front of the character list (greedy matching is exact here because the digit
and whitespace classes are disjoint from the literals that follow). -/
def stockMatchAt (cs : List Char) : Bool :=
  (do
    let r1 ← dropWhile1 Char.isDigit cs
    let r2 ← dropWhile1 isPySpace r1
    let r3 ← matchLit ("in".toList) r2
    let r4 ← dropWhile1 isPySpace r3
    let _ ← matchLit ("stock".toList) r4
    pure ()).isSome

/-- Search semantics of re.search for the stock pattern, case-sensitive,
exactly as the code compiles it (tracker.py line 102 passes no re.I flag). -/
def stockSearchCS (t : String) : Bool := t.toList.tails.any stockMatchAt

/-- Search for the stock pattern case-insensitively.  This is the spec's
description of the fallback (spec section 4.1 strategy (b) says
case-insensitive); it is kept as a comparator for the code's matcher. -/
def stockSearchCI (t : String) : Bool := (lowerL t.toList).tails.any stockMatchAt

/-- First maximal digit run of a character list (model of the first element
of re.findall with the digit-run pattern). -/
def firstDigitRun : List Char → Option (List Char)
  | [] => none
  | c :: cs => if c.isDigit then some (c :: cs.takeWhile Char.isDigit) else firstDigitRun cs

/-- Model of Python str.strip: remove leading and trailing whitespace. -/
def pyStrip (s : String) : String :=
  ⟨((s.toList.dropWhile isPySpace).reverse.dropWhile isPySpace).reverse⟩

/-- Worker for pyReplace: scan the text left to right, replacing each
non-overlapping occurrence of the pattern; the counter skips the characters
of a match already consumed.  The pattern must be non-empty. -/
def replaceGo (pat repl : List Char) : List Char → Nat → List Char
  | [], _ => []
  | _ :: cs, Nat.succ k => replaceGo pat repl cs k
  | c :: cs, 0 =>
    if pat.isPrefixOf (c :: cs) then repl ++ replaceGo pat repl cs (pat.length - 1)
    else c :: replaceGo pat repl cs 0

/-- Model of Python str.replace with a non-empty pattern: every
non-overlapping occurrence, left to right. -/
def pyReplace (s pat repl : String) : String :=
  ⟨replaceGo pat.toList repl.toList s.toList 0⟩

/-- Model of Python split on the question mark taking piece zero: the prefix
of the string before its first question mark. -/
def beforeQuery (s : String) : String :=
  ⟨s.toList.takeWhile (fun c => c ≠ '?')⟩

/-- Model of Python split on the slash taking the last piece: the suffix of
the string after its last slash (the whole string when it has none). -/
def lastPathSegment (s : String) : String :=
  ⟨(s.toList.reverse.takeWhile (fun c => c ≠ '/')).reverse⟩

/-- An HTML element as queried by the code: its class attribute values and
its concatenated descendant text. -/
structure Element where
  classes : List String
  text : String
deriving Repr, DecidableEq

/-- The span inside a variant-inventory element: its text and its optional
data-variant-id attribute. -/
structure InvSpan where
  text : String
  dataVariantId : Option String
deriving Repr, DecidableEq

/-- Abstract model of a fetched product page, holding exactly the
projections the extraction code queries: text of the first h1 (none when no
h1 exists), all elements in document order, the first span under the first
variant-inventory element (none when either is absent), and all text nodes
in document order. -/
structure HtmlDoc where
  h1Text : Option String
  elements : List Element
  invSpan : Option InvSpan
  textNodes : List String
deriving Repr, DecidableEq

/-- Predicate of the soup.find call with the class regex sku under re.I:
some class value contains sku case-insensitively. -/
def skuClassMatch (e : Element) : Bool :=
  e.classes.any (fun c => listContains ("sku".toList) (lowerL c.toList))

/-- SKU extraction exactly as tracker.py lines 89-91: the first element with
a class matching the sku regex, its text with every literal SKU-colon
occurrence removed and stripped; the sentinel when no such element exists. -/
def extractSku (d : HtmlDoc) : String :=
  match d.elements.find? skuClassMatch with
  | some e => pyStrip (pyReplace e.text "SKU:" "")
  | none => "N/A"

/-- Model of Python int applied to the concatenation of all digit characters
of a string (tracker.py line 97); Python raises ValueError when the string
has no digits, modelled as the error case. -/
def pyIntAllDigits (s : String) : Except Unit Nat :=
  let ds := s.toList.filter Char.isDigit
  if ds.isEmpty then Except.error () else Except.ok (digitsVal ds)

/-- Strategy (a) for stock, tracker.py lines 95-99: the variant-inventory
span whose text contains the in-stock literal; yields the digit value and the
raw data-variant-id attribute, or an exception when the text has no digits. -/
def invStrategy (d : HtmlDoc) : Except Unit (Option (Nat × Option String)) :=
  match d.invSpan with
  | some sp =>
    if listContains ("in stock".toList) sp.text.toList then
      match pyIntAllDigits sp.text with
      | Except.error e => Except.error e
      | Except.ok n => Except.ok (some (n, sp.dataVariantId))
    else Except.ok none
  | none => Except.ok none

/-- Fallback stock strategy, tracker.py lines 101-103: first text node
matching the case-sensitive stock regex, value of its first digit run. -/
def fallbackStock (d : HtmlDoc) : Option Nat :=
  (d.textNodes.find? stockSearchCS).bind (fun t => (firstDigitRun t.toList).map digitsVal)

/-- Normalized fields produced for one fetched CPAP Outlet page. -/
structure CpapFields where
  title : String
  sku : String
  stock : Option Nat
  variantId : String
deriving Repr, DecidableEq

/-- Truthiness guard of tracker.py line 98: the data-variant-id attribute is
used only when present and non-empty, otherwise the default sentinel. -/
def variantIdOf (dvi : Option String) : String :=
  match dvi with
  | some v => if v.isEmpty then "default" else v
  | none => "default"

/-- Field extraction for one CPAP Outlet page, tracker.py lines 88-103: name
from the first h1 (Unknown sentinel), sku via extractSku, stock via the
inventory strategy then the case-sensitive text fallback.  The error case is
the ValueError that int raises inside strategy (a) on a digitless span. -/
def extractCpap (d : HtmlDoc) : Except Unit CpapFields :=
  let title := match d.h1Text with | some t => pyStrip t | none => "Unknown"
  let sku := extractSku d
  match invStrategy d with
  | Except.error e => Except.error e
  | Except.ok (some (n, dvi)) => Except.ok ⟨title, sku, some n, variantIdOf dvi⟩
  | Except.ok none => Except.ok ⟨title, sku, fallbackStock d, "default"⟩

/-- One row of the inventory log as inserted by the scans. -/
structure SnapRow where
  timestamp : String
  site : String
  productName : String
  sku : String
  productUrl : String
  variantId : String
  stockCount : Int
deriving Repr, DecidableEq

/-- Stock value the extraction resolves for a page: none when no strategy
matched or when extraction raised. -/
def resolvedStockCpap (d : HtmlDoc) : Option Nat :=
  match extractCpap d with
  | Except.ok f => f.stock
  | Except.error _ => none

/-- Per-page behaviour of the scan loop body, tracker.py lines 84-110: a row
is inserted only when stock resolved; an exception anywhere in the body is
swallowed and the item skipped. -/
def processCpapRecord (runTime url : String) (d : HtmlDoc) : List SnapRow :=
  match extractCpap d with
  | Except.error _ => []
  | Except.ok f =>
    match f.stock with
    | some n => [⟨runTime, "CPAP Outlet", f.title, f.sku, url, f.variantId, Int.ofNat n⟩]
    | none => []

/-- Base origin of site A, tracker.py line 16. -/
def SITE_A_BASE : String := "https://www.cpapoutlet.ca"

/-- Base origin of site B, tracker.py line 20. -/
def SITE_B_BASE : String := "https://airvoel.ca"

/-- Canonical product URL, tracker.py line 68: base origin plus the href
with its query string cut off. -/
def canonicalUrl (href : String) : String :=
  SITE_A_BASE ++ beforeQuery href

/-- Product-link test, tracker.py line 67: the href contains the products
path segment as a substring. -/
def isProductHref (href : String) : Bool :=
  listContains ("/products/".toList) href.toList

/-- Inner loop of get_cpap_urls over one listing page, tracker.py lines
65-71: walk the hrefs, add each new canonical product link to the seen set
and count how many were new on this page. -/
def addLinks : List String → List String → List String × Nat
  | seen, [] => (seen, 0)
  | seen, href :: hs =>
    if isProductHref href then
      if canonicalUrl href ∈ seen then addLinks seen hs
      else
        let r := addLinks (seen ++ [canonicalUrl href]) hs
        (r.1, r.2 + 1)
    else addLinks seen hs

/-- Pagination loop of get_cpap_urls, tracker.py lines 57-76, over the
listing pages the server would serve in order; an exhausted page list models
the request failing (the loop breaks on a non-success response).  Returns
the collected link set and the number of listing pages requested; the loop
stops right after the first page that contributed zero new links. -/
def get_cpap_urls : List String → List (List String) → List String × Nat
  | seen, [] => (seen, 0)
  | seen, page :: rest =>
    let r := addLinks seen page
    if r.2 = 0 then (r.1, 1)
    else
      let r2 := get_cpap_urls r.1 rest
      (r2.1, r2.2 + 1)

/-- One variant node of the GraphQL response, tracker.py lines 135-140. -/
structure GqlVariant where
  id : String
  sku : Option String
  title : String
  quantityAvailable : Option Int
deriving Repr, DecidableEq

/-- One product node of the GraphQL response, tracker.py lines 131-141. -/
structure GqlProduct where
  title : String
  handle : String
  variants : List GqlVariant
deriving Repr, DecidableEq

/-- One page of the GraphQL response: product nodes plus pageInfo. -/
structure GqlResponse where
  products : List GqlProduct
  hasNextPage : Bool
  endCursor : Option String
deriving Repr, DecidableEq

/-- Display name of a variant, tracker.py line 170: the bare product title
for the Default Title sentinel, otherwise title with variant title appended. -/
def variantName (pTitle vTitle : String) : String :=
  if vTitle = "Default Title" then pTitle else pTitle ++ " (" ++ vTitle ++ ")"

/-- Per-variant body of scan_airvoel, tracker.py lines 165-176: sku falls
back to the sentinel when null or empty, the variant id is the trailing path
segment of the opaque id, and a row is produced only when quantityAvailable
is present — its value is inserted verbatim. -/
def processVariant (runTime pTitle url : String) (v : GqlVariant) : List SnapRow :=
  let sku := match v.sku with | some s => if s.toList.isEmpty then "N/A" else s | none => "N/A"
  let vid := lastPathSegment v.id
  let fullName := variantName pTitle v.title
  match v.quantityAvailable with
  | some q => [⟨runTime, "Airvoel", fullName, sku, url, vid, q⟩]
  | none => []

/-- Per-product body of scan_airvoel, tracker.py lines 161-176. -/
def processProduct (runTime : String) (p : GqlProduct) : List SnapRow :=
  let url := SITE_B_BASE ++ "/products/" ++ p.handle
  p.variants.foldr (fun v acc => processVariant runTime p.title url v ++ acc) []

/-- Pagination loop of scan_airvoel, tracker.py lines 151-182, over the
responses the server would serve in order (an exhausted list models a
failing request, on which the loop breaks).  Each consumed response is one
request.  Returns the request count, the cursor sent with each request, and
the rows inserted: the loop breaks before inserting when a page has zero
products, and otherwise continues exactly while hasNextPage is true,
advancing the cursor to the page's endCursor. -/
def airvoelLoop (runTime : String) : Option String → List GqlResponse → Nat × List (Option String) × List SnapRow
  | _, [] => (0, [], [])
  | cursor, resp :: rest =>
    if resp.products.isEmpty then (1, [cursor], [])
    else
      let rows := resp.products.foldr (fun p acc => processProduct runTime p ++ acc) []
      if resp.hasNextPage then
        let r := airvoelLoop runTime resp.endCursor rest
        (r.1 + 1, cursor :: r.2.1, rows ++ r.2.2)
      else (1, [cursor], rows)

/-- One row of the inventory_log table as stored; a none field is SQL NULL
(or, for a column added by migration, the unset value of older rows). -/
structure DbRow where
  timestamp : Option String
  site : Option String
  productName : Option String
  sku : Option String
  productUrl : Option String
  variantId : Option String
  stockCount : Option Int
deriving Repr, DecidableEq

/-- Database row written by an INSERT of a snapshot: every field set. -/
def rowOf (r : SnapRow) : DbRow :=
  ⟨some r.timestamp, some r.site, some r.productName, some r.sku,
   some r.productUrl, some r.variantId, some r.stockCount⟩

/-- State of the SQLite file: whether the log table exists, which of the
migratable columns its schema has, and its rows. -/
structure DbState where
  hasTable : Bool
  hasSite : Bool
  hasSku : Bool
  rows : List DbRow
deriving Repr, DecidableEq

/-- Effect of ALTER TABLE ADD COLUMN site: every existing row gets NULL. -/
def addSiteColumn (rows : List DbRow) : List DbRow :=
  rows.map (fun r => { r with site := none })

/-- Effect of the UPDATE at tracker.py line 46: rows whose site is NULL are
set to the fixed legacy label. -/
def backfillSite (rows : List DbRow) : List DbRow :=
  rows.map (fun r => if r.site = none then { r with site := some "CPAP Outlet" } else r)

/-- Effect of ALTER TABLE ADD COLUMN sku: every existing row gets NULL
(tracker.py line 48 adds no backfill for sku). -/
def addSkuColumn (rows : List DbRow) : List DbRow :=
  rows.map (fun r => { r with sku := none })

/-- Model of init_db, tracker.py lines 27-50: create the table with the full
schema when absent, then add the site column with its legacy backfill when
missing, then add the sku column (no backfill) when missing. -/
def init_db (db : DbState) : DbState :=
  let db1 := if db.hasTable then db else ⟨true, true, true, []⟩
  let db2 := if db1.hasSite then db1
             else ⟨db1.hasTable, true, db1.hasSku, backfillSite (addSiteColumn db1.rows)⟩
  if db2.hasSku then db2 else ⟨db2.hasTable, db2.hasSite, true, addSkuColumn db2.rows⟩

/-- Append of one snapshot row (the INSERT statement of the scans). -/
def appendRow (db : DbState) (r : SnapRow) : DbState :=
  { db with rows := db.rows ++ [rowOf r] }

/-- Read contract of the reporting layer, dashboard.py lines 26-30: every
row of the log, unordered. -/
def readAll (db : DbState) : List DbRow := db.rows

/-- An open SQLite connection: rows inserted but not yet committed, and the
rows durably committed in the file. -/
structure Conn where
  pending : List DbRow
  committed : List DbRow
deriving Repr, DecidableEq

/-- Execute one INSERT on the connection: the row joins the open
transaction, not the durable state. -/
def execInsert (conn : Conn) (r : SnapRow) : Conn :=
  { conn with pending := conn.pending ++ [rowOf r] }

/-- Model of conn.commit: the open transaction becomes durable. -/
def commitConn (conn : Conn) : Conn :=
  ⟨[], conn.committed ++ conn.pending⟩

/-- Model of conn.close without a commit: the open transaction rolls back. -/
def closeNoCommit (conn : Conn) : Conn :=
  ⟨[], conn.committed⟩

/-- Rows inserted by scan_cpap_outlet over the fetched pages in order. -/
def cpapRows (runTime : String) (fetched : List (String × HtmlDoc)) : List SnapRow :=
  fetched.foldr (fun p acc => processCpapRecord runTime p.1 p.2 ++ acc) []

/-- Rows inserted by scan_airvoel over the served responses. -/
def airvoelRows (runTime : String) (responses : List GqlResponse) : List SnapRow :=
  (airvoelLoop runTime none responses).2.2

/-- Model of scan_cpap_outlet as a connection transformer (tracker.py lines
78-111): it only issues INSERTs on the shared connection. -/
def scan_cpap_outlet (runTime : String) (fetched : List (String × HtmlDoc)) (conn : Conn) : Conn :=
  (cpapRows runTime fetched).foldl execInsert conn

/-- Model of scan_airvoel as a connection transformer (tracker.py lines
114-183): it only issues INSERTs on the shared connection. -/
def scan_airvoel (runTime : String) (responses : List GqlResponse) (conn : Conn) : Conn :=
  (airvoelRows runTime responses).foldl execInsert conn

/-- State of the job cycle right before its final commit, tracker.py lines
189-191: a fresh connection on the existing file, then both scans. -/
def jobPreCommit (runTime : String) (fetched : List (String × HtmlDoc))
    (responses : List GqlResponse) (committed : List DbRow) : Conn :=
  scan_airvoel runTime responses (scan_cpap_outlet runTime fetched ⟨[], committed⟩)

/-- Model of job, tracker.py lines 185-194: open a connection, run both
scans, then one commit at the very end of the cycle. -/
def job (runTime : String) (fetched : List (String × HtmlDoc))
    (responses : List GqlResponse) (committed : List DbRow) : Conn :=
  commitConn (jobPreCommit runTime fetched responses committed)

/-- Strip of a leading SKU-colon mark from a text, case-insensitively, then
whitespace removed — the prefix stripping the spec describes. -/
def specStripSkuPrefix (t : String) : String :=
  if ("sku:".toList).isPrefixOf (lowerL t.toList) then pyStrip ⟨t.toList.drop 5⟩
  else pyStrip t

/-- SKU resolution as the spec states it (section 4.1, strategy chain):
strategy (a) the first sku-class element's text with the prefix stripped,
strategy (b) the first text node matching the SKU-colon mark
case-insensitively with the prefix stripped; the first strategy yielding
non-empty text wins, otherwise the sentinel.  This definition follows the
spec's words and is kept only as a comparator for the code's extractSku. -/
def skuChainPerSpec (d : HtmlDoc) : String :=
  let a := (d.elements.find? skuClassMatch).map (fun e => specStripSkuPrefix e.text)
  let b := (d.textNodes.find? (fun t => listContains ("sku:".toList) (lowerL t.toList))).map
      specStripSkuPrefix
  match a with
  | some s =>
    if s ≠ "" then s else
      match b with
      | some s2 => if s2 ≠ "" then s2 else "N/A"
      | none => "N/A"
  | none =>
    match b with
    | some s2 => if s2 ≠ "" then s2 else "N/A"
    | none => "N/A"

/-- Page with no sku-class element but a text node carrying the SKU mark:
the spec's strategy (b) would resolve it, the code has no such strategy. -/
def docSkuTextOnly : HtmlDoc :=
  ⟨some "AirSense 11", [], none, ["SKU: ABC123"]⟩

/-- Page with a sku-class element whose text yields the sku after stripping. -/
def docSkuClass : HtmlDoc :=
  ⟨some "AirSense 11", [⟨["ProductSKU"], " SKU: Z9 "⟩], none, ["SKU: IGNORED"]⟩

/-- Page whose only stock text is in mixed case: the case-insensitive
fallback the spec describes would match it, the code's case-sensitive regex
does not. -/
def docMixedCaseStock : HtmlDoc :=
  ⟨some "AirMini", [], none, ["5 In Stock"]⟩

/-- Page whose inventory-indicator span says in stock without any digit:
the input on which the extraction code calls int on an empty string. -/
def docDigitlessStock : HtmlDoc :=
  ⟨some "AirFit P10", [], some ⟨"Currently in stock", none⟩, ["Currently in stock"]⟩

/-- GraphQL variant for which the external source reports a negative
available quantity (an oversold variant). -/
def oversoldVariant : GqlVariant :=
  ⟨"gid://shopify/ProductVariant/111", some "SK1", "Default Title", some (-3)⟩

/-- Claim C1, counterexample: on a page with no sku-class element and a text
node carrying the SKU mark, the ordered strategy chain of the claim resolves
the sku from the text node, but the code resolves the sentinel — the code
has no text-node strategy (b) at all (tracker.py lines 89-91). -/
theorem C1_counterexample :
    extractSku docSkuTextOnly = "N/A" ∧ skuChainPerSpec docSkuTextOnly = "ABC123" ∧
      extractSku docSkuTextOnly ≠ skuChainPerSpec docSkuTextOnly := by
  refine ⟨by decide, by decide, by decide⟩

/-- Claim C1 as amended: SKU resolution uses only strategy (a) — when a
first element with a class matching the sku pattern case-insensitively
exists, the sku is that element's text with every literal SKU-colon
occurrence removed and stripped (kept even when empty); otherwise the sku is
the sentinel; the document's text nodes are never consulted. -/
theorem C1_sku_strategy_a_only : ∀ d : HtmlDoc,
    (∀ e, d.elements.find? skuClassMatch = some e →
      extractSku d = pyStrip (pyReplace e.text "SKU:" "")) ∧
    (d.elements.find? skuClassMatch = none → extractSku d = "N/A") ∧
    (∀ nodes, extractSku { d with textNodes := nodes } = extractSku d) := by
  intro d
  refine ⟨?_, ?_, ?_⟩
  · intro e h; simp [extractSku, h]
  · intro h; simp [extractSku, h]
  · intro nodes; rfl

/-- Claim C1, witness: the amended theorem applied to a concrete page whose
sku-class element text strips to a concrete sku. -/
theorem C1_witness : extractSku docSkuClass = "Z9" := by
  have h := (C1_sku_strategy_a_only docSkuClass).1 ⟨["ProductSKU"], " SKU: Z9 "⟩ (by decide)
  rw [h]; decide

/-- Claim C4: on a page whose inventory-indicator span text contains the
in-stock literal but no digit, the extraction body evaluates int on an empty
string and raises (the error value), so the whole record is swallowed by the
per-item handler — extraction is not total there, contradicting the spec's
never-throws contract (tracker.py line 97). -/
theorem C4_extraction_raises :
    extractCpap docDigitlessStock = Except.error () ∧
      processCpapRecord "2024-01-01 00:00:00"
        "https://www.cpapoutlet.ca/products/x" docDigitlessStock = [] := ⟨rfl, rfl⟩

/-- Claim C5, counterexample: when the GraphQL source reports a negative
available quantity, the adapter persists a row with a negative stock count
(tracker.py lines 168-176 insert quantityAvailable verbatim). -/
theorem C5_counterexample :
    ∃ r, r ∈ processVariant "2024-01-01 00:00:00" "AirSense"
        "https://airvoel.ca/products/x" oversoldVariant ∧ r.stockCount < 0 := by
  refine ⟨⟨"2024-01-01 00:00:00", "Airvoel", "AirSense", "SK1",
    "https://airvoel.ca/products/x", "111", -3⟩, by decide, by decide⟩

/-- Claim C5 as amended: every row persisted by the HTML-collection adapter
has a non-negative stock count, while a row persisted by the GraphQL adapter
carries the source's quantityAvailable value verbatim — it is non-negative
exactly when the external source's value is. -/
theorem C5_stock_sign :
    (∀ rt url d r, r ∈ processCpapRecord rt url d → 0 ≤ r.stockCount) ∧
    (∀ rt pt url v r, r ∈ processVariant rt pt url v →
      v.quantityAvailable = some r.stockCount) := by
  constructor
  · intro rt url d r hr
    unfold processCpapRecord at hr
    rcases h : extractCpap d with e | f
    · rw [h] at hr; simp at hr
    · rw [h] at hr; dsimp only at hr
      rcases hs : f.stock with _ | n
      · rw [hs] at hr; simp at hr
      · rw [hs] at hr; simp at hr; subst hr; simp
  · intro rt pt url v r hr
    unfold processVariant at hr
    rcases h : v.quantityAvailable with _ | q
    · rw [h] at hr; dsimp only at hr; simp at hr
    · rw [h] at hr; dsimp only at hr; simp at hr; subst hr; simp [h]

/-- Claim C5, witness: the amended theorem applied to a concrete HTML row
and to the oversold GraphQL variant. -/
theorem C5_stock_sign_witness :
    (0:Int) ≤ ((⟨"t", "CPAP Outlet", "Mask", "N/A", "u", "42", 2⟩ : SnapRow).stockCount) ∧
      oversoldVariant.quantityAvailable = some (-3) := by
  constructor
  · exact C5_stock_sign.1 "t" "u" ⟨some "Mask", [], some ⟨"2 in stock", some "42"⟩, []⟩ _ (by decide)
  · exact C5_stock_sign.2 "t" "P" "u" oversoldVariant
      ⟨"t", "Airvoel", "P", "SK1", "u", "111", -3⟩ (by decide)

/-- Claim C2: on any existing table, init_db leaves the schema with both
migratable columns present, preserves the row count, and when the site
column was missing it backfills every pre-existing row with the fixed legacy
site label — no row with a defined default is left unset (tracker.py
lines 42-48). -/
theorem C2_init_migration : ∀ db : DbState, db.hasTable = true →
    ((init_db db).hasTable = true ∧ (init_db db).hasSite = true ∧ (init_db db).hasSku = true) ∧
    (init_db db).rows.length = db.rows.length ∧
    (db.hasSite = false → ∀ r ∈ (init_db db).rows, r.site = some "CPAP Outlet") := by
  rintro ⟨ht, hsite, hsku, rows⟩ h
  simp only at h; subst h
  cases hsite <;> cases hsku <;>
    simp [init_db, addSiteColumn, backfillSite, addSkuColumn, List.mem_map]

/-- Claim C2, witness: migration applied to a concrete one-row table whose
schema lacks both the site and sku columns. -/
theorem C2_witness :
    ((init_db ⟨true, false, false, [⟨some "ts", none, some "p", none, some "u", some "v", some 3⟩]⟩).hasSite = true) ∧
    (∀ r ∈ (init_db ⟨true, false, false, [⟨some "ts", none, some "p", none, some "u", some "v", some 3⟩]⟩).rows,
      r.site = some "CPAP Outlet") := by
  have h := C2_init_migration ⟨true, false, false, [⟨some "ts", none, some "p", none, some "u", some "v", some 3⟩]⟩ rfl
  exact ⟨h.1.2.1, h.2.2 rfl⟩

/-- Claim C8: in both adapters a snapshot row is inserted exactly when a
stock count was resolved for the item — an unresolved item contributes no
row at all, and an inserted row carries the resolved count (tracker.py
lines 105-107 and 172-176). -/
theorem C8_row_iff_resolved : ∀ rt url d rt2 pt purl v,
    (resolvedStockCpap d = none → processCpapRecord rt url d = []) ∧
    (∀ n, resolvedStockCpap d = some n →
      ∃ r, processCpapRecord rt url d = [r] ∧ r.stockCount = Int.ofNat n) ∧
    (v.quantityAvailable = none → processVariant rt2 pt purl v = []) ∧
    (∀ q, v.quantityAvailable = some q →
      ∃ r, processVariant rt2 pt purl v = [r] ∧ r.stockCount = q) := by
  intro rt url d rt2 pt purl v
  refine ⟨?_, ?_, ?_, ?_⟩
  · intro h
    unfold resolvedStockCpap at h
    unfold processCpapRecord
    rcases he : extractCpap d with e | f
    · rfl
    · rw [he] at h; dsimp only at h ⊢; rw [h]
  · intro n h
    unfold resolvedStockCpap at h
    unfold processCpapRecord
    rcases he : extractCpap d with e | f
    · rw [he] at h; simp at h
    · rw [he] at h; dsimp only at h ⊢; rw [h]; exact ⟨_, rfl, rfl⟩
  · intro h; simp [processVariant, h]
  · intro q h; simp [processVariant, h]

/-- Claim C8, witness: one resolved HTML item producing exactly its row, and
one quantity-less GraphQL variant producing no row. -/
theorem C8_witness :
    (∃ r, processCpapRecord "t" "u" ⟨some "Mask", [], some ⟨"2 in stock", some "42"⟩, []⟩ = [r] ∧
      r.stockCount = Int.ofNat 2) ∧
    processVariant "t" "P" "u" ⟨"gid/9", none, "Blue", none⟩ = [] := by
  constructor
  · exact (C8_row_iff_resolved "t" "u" ⟨some "Mask", [], some ⟨"2 in stock", some "42"⟩, []⟩
      "t" "P" "u" ⟨"gid/9", none, "Blue", none⟩).2.1 2 (by decide)
  · exact (C8_row_iff_resolved "t" "u" ⟨some "Mask", [], some ⟨"2 in stock", some "42"⟩, []⟩
      "t" "P" "u" ⟨"gid/9", none, "Blue", none⟩).2.2.1 rfl

/-- Any character list on which the stock pattern matches contains a digit. -/
theorem stockMatchAt_digit : ∀ cs, stockMatchAt cs = true → ∃ c ∈ cs, c.isDigit = true := by
  intro cs h
  rcases cs with _ | ⟨c, cs⟩
  · simp [stockMatchAt, dropWhile1] at h
  · by_cases hd : c.isDigit
    · exact ⟨c, List.mem_cons_self c cs, hd⟩
    · exfalso; simp [stockMatchAt, dropWhile1, hd] at h

/-- Any string the stock search accepts contains a digit character. -/
theorem stockSearchCS_digit : ∀ t : String, stockSearchCS t = true →
    ∃ c ∈ t.toList, c.isDigit = true := by
  intro t h
  unfold stockSearchCS at h
  rw [List.any_eq_true] at h
  obtain ⟨l, hl, hm⟩ := h
  obtain ⟨c, hc, hd⟩ := stockMatchAt_digit l hm
  rw [List.mem_tails] at hl
  exact ⟨c, hl.subset hc, hd⟩

/-- A character list containing a digit has a first digit run. -/
theorem firstDigitRun_isSome : ∀ l : List Char, (∃ c ∈ l, c.isDigit = true) →
    (firstDigitRun l).isSome = true := by
  intro l h
  induction l with
  | nil => simp at h
  | cons c cs ih =>
    by_cases hd : c.isDigit
    · simp [firstDigitRun, hd]
    · obtain ⟨x, hx, hxd⟩ := h
      rcases List.mem_cons.mp hx with rfl | hx2
      · exact absurd hxd (by simp [hd])
      · simp only [firstDigitRun, hd, if_false, Bool.false_eq_true]
        exact ih ⟨x, hx2, hxd⟩

/-- Claim C3, counterexample: the case-insensitive pattern of the claim
matches the mixed-case stock text, yet on a page whose only stock text is
that mixed-case string the code resolves no stock and drops the record —
the compiled regex at tracker.py line 102 carries no ignore-case flag. -/
theorem C3_counterexample :
    stockSearchCI "5 In Stock" = true ∧
      resolvedStockCpap docMixedCaseStock = none ∧
      processCpapRecord "2024-01-01 00:00:00"
        "https://www.cpapoutlet.ca/products/y" docMixedCaseStock = [] := by
  refine ⟨by decide, by decide, rfl⟩

/-- Claim C3 as amended: when the dedicated inventory-indicator strategy
does not match, the fallback scans the text nodes with the case-sensitive
stock pattern — the first matching node resolves the stock from its first
digit run and yields a row, and only when this case-sensitive scan fails is
stock unresolved and the record dropped. -/
theorem C3_fallback_case_sensitive : ∀ rt url (d : HtmlDoc), d.invSpan = none →
    (∀ t, d.textNodes.find? stockSearchCS = some t →
      ∃ n, resolvedStockCpap d = some n ∧
        (firstDigitRun t.toList).map digitsVal = some n ∧
        processCpapRecord rt url d ≠ []) ∧
    (d.textNodes.find? stockSearchCS = none →
      resolvedStockCpap d = none ∧ processCpapRecord rt url d = []) := by
  intro rt url d hinv
  have hstrat : invStrategy d = Except.ok none := by simp [invStrategy, hinv]
  constructor
  · intro t ht
    have hpred : stockSearchCS t = true := List.find?_some ht
    obtain ⟨run, hrun⟩ := Option.isSome_iff_exists.mp
      (firstDigitRun_isSome t.toList (stockSearchCS_digit t hpred))
    have hfb : fallbackStock d = some (digitsVal run) := by
      simp only [fallbackStock, ht, Option.some_bind, hrun]; rfl
    refine ⟨digitsVal run, ?_, ?_, ?_⟩
    · simp [resolvedStockCpap, extractCpap, hstrat, hfb]
    · rw [hrun]; rfl
    · simp [processCpapRecord, extractCpap, hstrat, hfb]
  · intro hnone
    have hfb : fallbackStock d = none := by simp [fallbackStock, hnone]
    constructor
    · simp [resolvedStockCpap, extractCpap, hstrat, hfb]
    · simp [processCpapRecord, extractCpap, hstrat, hfb]

/-- Claim C3, witness: the amended theorem applied to a page whose only
stock text is lowercase, resolving its first digit run. -/
theorem C3_witness :
    ∃ n, resolvedStockCpap ⟨some "Mask", [], none, ["only 7 in stock left"]⟩ = some n ∧
      (firstDigitRun ("only 7 in stock left").toList).map digitsVal = some n ∧
      processCpapRecord "t" "u" ⟨some "Mask", [], none, ["only 7 in stock left"]⟩ ≠ [] := by
  exact (C3_fallback_case_sensitive "t" "u" ⟨some "Mask", [], none, ["only 7 in stock left"]⟩
    rfl).1 "only 7 in stock left" (by decide)

/-- A page whose product links are all already in the seen set contributes
zero new links and leaves the set unchanged. -/
theorem addLinks_all_seen : ∀ (page seen : List String),
    (∀ href ∈ page, isProductHref href = true → canonicalUrl href ∈ seen) →
    addLinks seen page = (seen, 0) := by
  intro page
  induction page with
  | nil => intro seen _; rfl
  | cons href hs ih =>
    intro seen h
    by_cases hp : isProductHref href
    · have hmem : canonicalUrl href ∈ seen := h href (List.mem_cons_self href hs) hp
      simp only [addLinks, hp, if_true, hmem, if_pos]
      exact ih seen (fun x hx hpx => h x (List.mem_cons_of_mem href hx) hpx)
    · simp only [addLinks, hp, Bool.false_eq_true, if_false]
      exact ih seen (fun x hx hpx => h x (List.mem_cons_of_mem href hx) hpx)

/-- The seen set only grows while a page is processed. -/
theorem addLinks_mono : ∀ (page seen : List String) (x : String),
    x ∈ seen → x ∈ (addLinks seen page).1 := by
  intro page
  induction page with
  | nil => intro seen x hx; exact hx
  | cons href hs ih =>
    intro seen x hx
    by_cases hp : isProductHref href
    · by_cases hmem : canonicalUrl href ∈ seen
      · simp only [addLinks, hp, if_true, hmem, if_pos]
        exact ih seen x hx
      · simp only [addLinks, hp, if_true, hmem, if_neg, not_false_iff]
        exact ih (seen ++ [canonicalUrl href]) x (List.mem_append_left _ hx)
    · simp only [addLinks, hp, Bool.false_eq_true, if_false]
      exact ih seen x hx

/-- After a page is processed, the canonical form of each of its product
links is in the seen set. -/
theorem addLinks_collects : ∀ (page seen : List String) (href : String),
    href ∈ page → isProductHref href = true →
    canonicalUrl href ∈ (addLinks seen page).1 := by
  intro page
  induction page with
  | nil => intro seen href h; exact absurd h (List.not_mem_nil href)
  | cons h0 hs ih =>
    intro seen href hmem hp
    rcases List.mem_cons.mp hmem with rfl | htail
    · by_cases hseen : canonicalUrl href ∈ seen
      · simp only [addLinks, hp, if_true, hseen, if_pos]
        exact addLinks_mono hs seen _ hseen
      · simp only [addLinks, hp, if_true, hseen, if_neg, not_false_iff]
        exact addLinks_mono hs (seen ++ [canonicalUrl href]) _
          (List.mem_append_right _ (List.mem_singleton.mpr rfl))
    · by_cases hp0 : isProductHref h0
      · by_cases hseen : canonicalUrl h0 ∈ seen
        · simp only [addLinks, hp0, if_true, hseen, if_pos]
          exact ih seen href htail hp
        · simp only [addLinks, hp0, if_true, hseen, if_neg, not_false_iff]
          exact ih (seen ++ [canonicalUrl h0]) href htail hp
      · simp only [addLinks, hp0, Bool.false_eq_true, if_false]
        exact ih seen href htail hp

/-- A page carrying a product link whose canonical form is not yet seen
contributes at least one new link. -/
theorem addLinks_new_nonzero : ∀ (page seen : List String),
    (∃ href ∈ page, isProductHref href = true ∧ canonicalUrl href ∉ seen) →
    (addLinks seen page).2 ≠ 0 := by
  intro page
  induction page with
  | nil => intro seen h; obtain ⟨x, hx, _⟩ := h; exact absurd hx (List.not_mem_nil x)
  | cons h0 hs ih =>
    intro seen h
    by_cases hp0 : isProductHref h0
    · by_cases hseen : canonicalUrl h0 ∈ seen
      · simp only [addLinks, hp0, if_true, hseen, if_pos]
        obtain ⟨x, hx, hpx, hnx⟩ := h
        rcases List.mem_cons.mp hx with rfl | htail
        · exact absurd hseen hnx
        · exact ih seen ⟨x, htail, hpx, hnx⟩
      · simp only [addLinks, hp0, if_true, hseen, if_neg, not_false_iff]
        simp
    · simp only [addLinks, hp0, Bool.false_eq_true, if_false]
      obtain ⟨x, hx, hpx, hnx⟩ := h
      rcases List.mem_cons.mp hx with rfl | htail
      · exact absurd hpx (by simp [hp0])
      · exact ih seen ⟨x, htail, hpx, hnx⟩

/-- The crawl stops right after a page that contributed zero new links. -/
theorem crawl_stops_on_no_new : ∀ (seen page : List String) (rest : List (List String)),
    (∀ href ∈ page, isProductHref href = true → canonicalUrl href ∈ seen) →
    (get_cpap_urls seen (page :: rest)).2 = 1 := by
  intro seen page rest h
  simp only [get_cpap_urls, addLinks_all_seen page seen h, if_pos]

/-- The crawl continues past a page that contributed a new link. -/
theorem get_cpap_urls_step : ∀ (seen page : List String) (rest : List (List String)),
    (addLinks seen page).2 ≠ 0 →
    (get_cpap_urls seen (page :: rest)).2 = (get_cpap_urls (addLinks seen page).1 rest).2 + 1 := by
  intro seen page rest h
  simp only [get_cpap_urls]
  rw [if_neg h]

/-- Claim C6: discovery stops at the first page contributing zero links not
already in the running deduplication set, even when that page is non-empty;
in particular, over a listing that serves the same link list on every page,
the crawl requests exactly two pages no matter how many links each page
carries (tracker.py lines 64-72). -/
theorem C6_pagination_terminates :
    (∀ (seen page : List String) (rest : List (List String)),
      (∀ href ∈ page, isProductHref href = true → canonicalUrl href ∈ seen) →
      (get_cpap_urls seen (page :: rest)).2 = 1) ∧
    (∀ (L : List String) (N : Nat), (∃ href ∈ L, isProductHref href = true) → 2 ≤ N →
      (get_cpap_urls [] (List.replicate N L)).2 = 2) := by
  constructor
  · exact crawl_stops_on_no_new
  · intro L N hex hN
    obtain ⟨k, rfl⟩ : ∃ k, N = k + 2 := ⟨N - 2, by omega⟩
    have hrep : List.replicate (k + 2) L = L :: L :: List.replicate k L := by
      rw [show k + 2 = (k + 1) + 1 from rfl, List.replicate_succ, List.replicate_succ]
    rw [hrep]
    obtain ⟨href, hmem, hp⟩ := hex
    have h1 : (addLinks [] L).2 ≠ 0 :=
      addLinks_new_nonzero L [] ⟨href, hmem, hp, List.not_mem_nil _⟩
    have h2 : (get_cpap_urls (addLinks [] L).1 (L :: List.replicate k L)).2 = 1 :=
      crawl_stops_on_no_new (addLinks [] L).1 L (List.replicate k L)
        (fun x hx hpx => addLinks_collects L [] x hx hpx)
    rw [get_cpap_urls_step [] L (L :: List.replicate k L) h1, h2]

/-- Claim C6, witness: a non-empty page with no new links stops after one
request, and a five-page listing repeating the same links stops after two. -/
theorem C6_witness :
    (get_cpap_urls ["https://www.cpapoutlet.ca/products/a"] [["/products/a?page=2", "/about"]]).2 = 1 ∧
    (get_cpap_urls [] (List.replicate 5 ["/products/a", "/products/b", "/cart"])).2 = 2 := by
  constructor
  · exact C6_pagination_terminates.1 ["https://www.cpapoutlet.ca/products/a"]
      ["/products/a?page=2", "/about"] [] (by decide)
  · exact C6_pagination_terminates.2 ["/products/a", "/products/b", "/cart"] 5
      ⟨"/products/a", by decide, by decide⟩ (by decide)

/-- A non-empty list is not isEmpty. -/
theorem isEmpty_false_of_ne {α : Type} (l : List α) (h : l ≠ []) : l.isEmpty = false := by
  cases l with
  | nil => exact absurd rfl h
  | cons a as => rfl

/-- Claim C7: over three pages whose hasNextPage flags are true, true and
false, the GraphQL loop issues exactly three requests, sending no cursor
first and then each page's endCursor; and a page with zero products stops
the loop after its own request even when hasNextPage is true (tracker.py
lines 151-182). -/
theorem C7_gql_pagination : ∀ (rt : String) (r1 r2 r3 : GqlResponse) (rest : List GqlResponse),
    r1.hasNextPage = true → r2.hasNextPage = true → r3.hasNextPage = false →
    r1.products ≠ [] → r2.products ≠ [] → r3.products ≠ [] →
    ((airvoelLoop rt none (r1 :: r2 :: r3 :: rest)).1 = 3 ∧
      (airvoelLoop rt none (r1 :: r2 :: r3 :: rest)).2.1 = [none, r1.endCursor, r2.endCursor]) ∧
    (∀ (cursor : Option String) (r : GqlResponse) (rest2 : List GqlResponse),
      r.products = [] →
      (airvoelLoop rt cursor (r :: rest2)).1 = 1 ∧
        (airvoelLoop rt cursor (r :: rest2)).2.2 = []) := by
  intro rt r1 r2 r3 rest hn1 hn2 hn3 hp1 hp2 hp3
  constructor
  · have e1 := isEmpty_false_of_ne r1.products hp1
    have e2 := isEmpty_false_of_ne r2.products hp2
    have e3 := isEmpty_false_of_ne r3.products hp3
    constructor <;>
      simp [airvoelLoop, e1, e2, e3, hn1, hn2, hn3]
  · intro cursor r rest2 hr
    constructor <;> simp [airvoelLoop, hr]

/-- Claim C7, witness: a concrete three-page fixture issues three requests
with chained cursors, and a concrete empty first page stops at one request. -/
theorem C7_witness :
    (airvoelLoop "t" none
      [⟨[⟨"T", "h", []⟩], true, some "c1"⟩, ⟨[⟨"T", "h", []⟩], true, some "c2"⟩,
        ⟨[⟨"T", "h", []⟩], false, none⟩]).1 = 3 ∧
    (airvoelLoop "t" none
      [⟨[⟨"T", "h", []⟩], true, some "c1"⟩, ⟨[⟨"T", "h", []⟩], true, some "c2"⟩,
        ⟨[⟨"T", "h", []⟩], false, none⟩]).2.1 = [none, some "c1", some "c2"] ∧
    (airvoelLoop "t" none [⟨[], true, some "c9"⟩, ⟨[⟨"T", "h", []⟩], true, some "c2"⟩]).1 = 1 := by
  have h := C7_gql_pagination "t" ⟨[⟨"T", "h", []⟩], true, some "c1"⟩
    ⟨[⟨"T", "h", []⟩], true, some "c2"⟩ ⟨[⟨"T", "h", []⟩], false, none⟩ []
    rfl rfl rfl (by decide) (by decide) (by decide)
  exact ⟨h.1.1, h.1.2, (h.2 none ⟨[], true, some "c9"⟩ [⟨[⟨"T", "h", []⟩], true, some "c2"⟩] rfl).1⟩

/-- Appending a sequence of rows only extends the stored row list. -/
theorem foldl_appendRow : ∀ (rs : List SnapRow) (db : DbState),
    (rs.foldl appendRow db).rows = db.rows ++ rs.map rowOf := by
  intro rs
  induction rs with
  | nil => intro db; simp
  | cons r rs ih => intro db; simp [ih, appendRow]

/-- Claim C9: appends never disturb earlier rows, and on a freshly
initialized store a sequence of appends makes readAll return exactly those
rows, field for field, in insertion order — nothing is updated, deleted or
deduplicated (tracker.py lines 106-107, dashboard.py lines 26-30). -/
theorem C9_append_only : ∀ (db : DbState) (rs : List SnapRow),
    (rs.foldl appendRow db).rows = db.rows ++ rs.map rowOf ∧
    readAll (rs.foldl appendRow (init_db ⟨false, false, false, []⟩)) = rs.map rowOf ∧
    (readAll (rs.foldl appendRow (init_db ⟨false, false, false, []⟩))).length = rs.length := by
  intro db rs
  refine ⟨foldl_appendRow rs db, ?_, ?_⟩
  · simp [readAll, foldl_appendRow, init_db]
  · simp [readAll, foldl_appendRow, init_db]

/-- Inserting on a connection only grows the open transaction and never
touches the durable state. -/
theorem foldl_execInsert : ∀ (rs : List SnapRow) (conn : Conn),
    (rs.foldl execInsert conn).pending = conn.pending ++ rs.map rowOf ∧
    (rs.foldl execInsert conn).committed = conn.committed := by
  intro rs
  induction rs with
  | nil => intro conn; simp
  | cons r rs ih => intro conn; simp [ih, execInsert]

/-- Claim C10: during a scan cycle nothing is durable before the single
commit at the end of the cycle — closing early persists none of the cycle's
rows — and the final commit persists exactly the rows both adapters
inserted, appended after the prior contents (tracker.py lines 185-194). -/
theorem C10_single_commit : ∀ (rt : String) (fetched : List (String × HtmlDoc))
    (responses : List GqlResponse) (committed : List DbRow),
    (jobPreCommit rt fetched responses committed).committed = committed ∧
    (closeNoCommit (jobPreCommit rt fetched responses committed)).committed = committed ∧
    (job rt fetched responses committed).committed =
      committed ++ (cpapRows rt fetched ++ airvoelRows rt responses).map rowOf ∧
    (job rt fetched responses committed).pending = [] := by
  intro rt fetched responses committed
  have h1 := foldl_execInsert (cpapRows rt fetched) ⟨[], committed⟩
  have h2 := foldl_execInsert (airvoelRows rt responses)
    ((cpapRows rt fetched).foldl execInsert ⟨[], committed⟩)
  refine ⟨?_, ?_, ?_, rfl⟩
  · show (scan_airvoel rt responses (scan_cpap_outlet rt fetched ⟨[], committed⟩)).committed = committed
    unfold scan_airvoel scan_cpap_outlet
    rw [h2.2, h1.2]
  · show (closeNoCommit (scan_airvoel rt responses (scan_cpap_outlet rt fetched ⟨[], committed⟩))).committed = committed
    unfold closeNoCommit scan_airvoel scan_cpap_outlet
    rw [h2.2, h1.2]
  · show (commitConn (jobPreCommit rt fetched responses committed)).committed = _
    unfold commitConn jobPreCommit scan_airvoel scan_cpap_outlet
    rw [h2.2, h1.2, h2.1, h1.1]
    simp
